import Mathlib

/-!
MakoScaleToFit: a verification development.

A shallow embedding of `MakoScaleToFit.cpp`.  The program resizes every page
of every PDF of a folder to a requested page size: it swaps the requested size
when the page is landscape, scales the content by the smaller of the two axis
ratios, centres it, and moves the page's children under one group that carries
the scaling matrix.

Numbers: the C++ `double` values are embedded as exact rationals (`ℚ`), so the
arithmetic below is exact; rounding, infinities and NaN are outside the model.
Division by zero is therefore never relied on: every statement about a quotient
carries a hypothesis that makes its divisor nonzero.
-/

namespace MakoScaleToFit

/-! ## Geometry values -/

/-- The value of one entry of the page-size table (`PageSizes::mapped_type`):
the two fields `main` reads and swaps. -/
structure PageSize where
  width : ℚ
  height : ℚ
  deriving DecidableEq

/-- The rectangle `FRect(x, y, dX, dY)` of the Mako SDK. -/
structure FRect where
  x : ℚ
  y : ℚ
  dX : ℚ
  dY : ℚ
  deriving DecidableEq

/-- The affine matrix `FMatrix(xx, xy, yx, yy, dx, dy)` of the Mako SDK. -/
structure FMatrix where
  xx : ℚ
  xy : ℚ
  yx : ℚ
  yy : ℚ
  dx : ℚ
  dy : ℚ
  deriving DecidableEq

/-! ## The per-page fit (lines 148-191 of `main`) -/

/-- Lines 148-155: `targetPageSize = requestedPageSize`, then
`if (width > height) std::swap(targetPageSize.width, targetPageSize.height)`. -/
def targetPageSize (requestedPageSize : PageSize) (width height : ℚ) : PageSize :=
  if width > height then
    { width := requestedPageSize.height, height := requestedPageSize.width }
  else
    requestedPageSize

/-- Line 175: `xScaleSize = targetPageSize.width / width`. -/
def xScaleSize (target : PageSize) (width : ℚ) : ℚ :=
  target.width / width

/-- Line 176: `yScaleSize = targetPageSize.height / height`. -/
def yScaleSize (target : PageSize) (height : ℚ) : ℚ :=
  target.height / height

/-- Line 179: `resizeScale = xScaleSize < yScaleSize ? xScaleSize : yScaleSize`. -/
def resizeScale (target : PageSize) (width height : ℚ) : ℚ :=
  if xScaleSize target width < yScaleSize target height then
    xScaleSize target width
  else
    yScaleSize target height

/-- The local variables of one iteration of the page loop once line 187 has run. -/
structure FitResult where
  targetWidth : ℚ
  targetHeight : ℚ
  resizeScale : ℚ
  dx : ℚ
  dy : ℚ
  deriving DecidableEq

/-- Lines 148-187 as a function of the requested size and of the page extent read
at lines 152-153.  `width *= resizeScale` and `height *= resizeScale`
(lines 182-183) are the two `let`s `scaledWidth` and `scaledHeight`. -/
def fitPage (requestedPageSize : PageSize) (width height : ℚ) : FitResult :=
  let target := targetPageSize requestedPageSize width height
  let scale := resizeScale target width height
  let scaledWidth := width * scale
  let scaledHeight := height * scale
  { targetWidth := target.width
    targetHeight := target.height
    resizeScale := scale
    dx := (target.width - scaledWidth) / 2
    dy := (target.height - scaledHeight) / 2 }

/-- Line 165: `FRect(0.0, 0.0, targetPageSize.width, targetPageSize.height)`. -/
def cropBoxOf (fit : FitResult) : FRect :=
  { x := 0, y := 0, dX := fit.targetWidth, dY := fit.targetHeight }

/-- Line 191: `FMatrix(resizeScale, 0.0, 0.0, resizeScale, dx, dy)`. -/
def scaleMatrix (fit : FitResult) : FMatrix :=
  { xx := fit.resizeScale, xy := 0, yx := 0, yy := fit.resizeScale, dx := fit.dx, dy := fit.dy }

/-- The fit as the specification words it (section 4.2, steps 1-4): swap the
requested size for a landscape source, take the minimum of the two axis ratios,
centre.  Kept apart from `fitPage`, which follows the code. -/
def fitSpec (rw rh sw sh : ℚ) : FitResult :=
  let tw := if sw > sh then rh else rw
  let th := if sw > sh then rw else rh
  let scale := min (tw / sw) (th / sh)
  { targetWidth := tw
    targetHeight := th
    resizeScale := scale
    dx := (tw - sw * scale) / 2
    dy := (th - sh * scale) / 2 }

/-! ## The page tree

The Mako SDK is a closed library: its headers and code are not part of the
sources.  The nodes of a page are embedded as an arena: a node is an index, and
the store records each node's ordered children, its parent, and the matrix of a
group node. -/

/-- A node of the page tree (`IDOMNodePtr`), by identity. -/
abbrev NodeId := Nat

/-- The store of nodes behind one page. `fresh` is the index the next created
node receives. -/
structure Dom where
  kids : NodeId → List NodeId
  parent : NodeId → Option NodeId
  matrix : NodeId → Option FMatrix
  fresh : NodeId

/-- Modelled from the spec: `IDOMNode::getFirstChild` of the Mako SDK, which is not
part of the sources; the first node of the ordered child sequence, or null. -/
def getFirstChild (d : Dom) (node : NodeId) : Option NodeId :=
  (d.kids node).head?

/-- The element that follows the first occurrence of `child` in a child sequence. -/
def nextAfter (child : NodeId) : List NodeId → Option NodeId
  | [] => none
  | x :: xs => if x = child then xs.head? else nextAfter child xs

/-- Modelled from the spec: `IDOMNode::getNextSibling` of the Mako SDK, which is not
part of the sources; the node after `child` in its parent's ordered child
sequence, or null when `child` is last or has no parent. -/
def getNextSibling (d : Dom) (child : NodeId) : Option NodeId :=
  match d.parent child with
  | none => none
  | some p => nextAfter child (d.kids p)

/-- Modelled from the spec: `IDOMNode::extractChild` of the Mako SDK, which is not
part of the sources; the extract primitive detaches `child` from `node`, the
other children keeping their order.  A node that is not a child of `node` is left
alone. -/
def extractChild (d : Dom) (node child : NodeId) : Dom :=
  if d.parent child = some node then
    { d with
      kids := fun n => if n = node then (d.kids node).erase child else d.kids n
      parent := fun n => if n = child then none else d.parent n }
  else
    d

/-- Modelled from the spec: `IDOMNode::appendChild` of the Mako SDK, which is not
part of the sources; the append primitive makes `child` the last child of
`node`. -/
def appendChild (d : Dom) (node child : NodeId) : Dom :=
  { d with
    kids := fun n => if n = node then d.kids node ++ [child] else d.kids n
    parent := fun n => if n = child then some node else d.parent n }

/-- Modelled from the spec: `IDOMGroup::create(jawsMako, matrix)` of the Mako SDK,
which is not part of the sources; the group constructor yields a new node, with
no child and no parent, that carries the affine transform. -/
def createGroup (d : Dom) (m : FMatrix) : NodeId × Dom :=
  (d.fresh,
    { kids := fun n => if n = d.fresh then [] else d.kids n
      parent := fun n => if n = d.fresh then none else d.parent n
      matrix := fun n => if n = d.fresh then some m else d.matrix n
      fresh := d.fresh + 1 })

/-- Lines 193-199: `while (child) { next = child->getNextSibling();
content->extractChild(child); scaleGroup->appendChild(child); child = next; }`.
The C++ loop has no bound of its own; `fuel` bounds the number of iterations and
`none` means the fuel ran out before `child` became null. -/
def moveChildren : Nat → Dom → NodeId → NodeId → Option NodeId → Option Dom
  | _, d, _, _, none => some d
  | 0, _, _, _, some _ => none
  | fuel + 1, d, content, scaleGroup, some child =>
    let next := getNextSibling d child
    let d1 := extractChild d content child
    let d2 := appendChild d1 scaleGroup child
    moveChildren fuel d2 content scaleGroup next

/-- One page as `main` sees it: the extent read through `IPage::getWidth` and
`getHeight` and written through `IDOMFixedPage::setWidth` and `setHeight`, the four
boxes written by `setCropBox`, `setBleedBox`, `setTrimBox` and `setContentBox`, the
fixed-page node `content` returned by `page->edit()`, and the node store. -/
structure Page where
  width : ℚ
  height : ℚ
  cropBox : FRect
  bleedBox : FRect
  trimBox : FRect
  contentBox : FRect
  content : NodeId
  dom : Dom

/-- Lines 148-202, the body of the page loop. `none` only when the fuel of the
child loop ran out. -/
def processPage (fuel : Nat) (requestedPageSize : PageSize) (page : Page) : Option Page :=
  let fit := fitPage requestedPageSize page.width page.height
  let cropBox := cropBoxOf fit
  let created := createGroup page.dom (scaleMatrix fit)
  let scaleGroup := created.1
  match moveChildren fuel created.2 page.content scaleGroup
      (getFirstChild created.2 page.content) with
  | none => none
  | some d =>
    some
      { width := fit.targetWidth
        height := fit.targetHeight
        cropBox := cropBox
        bleedBox := cropBox
        trimBox := cropBox
        contentBox := cropBox
        content := page.content
        dom := appendChild d page.content scaleGroup }

/-- What the tree of a page must satisfy for the child loop to be meaningful: the
children of `content` are distinct nodes, each records `content` as its parent,
and the index of the next created node is in use neither by `content` nor by one
of its children. -/
def Page.WellFormed (page : Page) : Prop :=
  (page.dom.kids page.content).Nodup ∧
  (∀ c ∈ page.dom.kids page.content,
    page.dom.parent c = some page.content ∧ c ≠ page.dom.fresh) ∧
  page.content ≠ page.dom.fresh

instance (page : Page) : Decidable page.WellFormed :=
  inferInstanceAs (Decidable (_ ∧ _ ∧ _))

/-- The store the child loop leaves behind, started on a node whose children are `rest`. -/
def movedDom (d : Dom) (content scaleGroup : NodeId) (rest : List NodeId) : Dom :=
  { kids := fun n =>
      if n = scaleGroup then d.kids scaleGroup ++ rest
      else if n = content then [] else d.kids n
    parent := fun n => if n ∈ rest then some scaleGroup else d.parent n
    matrix := d.matrix
    fresh := d.fresh }

/-- The page that `processPage` returns on a well-formed page. -/
def rewrittenPage (requestedPageSize : PageSize) (page : Page) : Page :=
  let fit := fitPage requestedPageSize page.width page.height
  let g := page.dom.fresh
  { width := fit.targetWidth
    height := fit.targetHeight
    cropBox := cropBoxOf fit
    bleedBox := cropBoxOf fit
    trimBox := cropBoxOf fit
    contentBox := cropBoxOf fit
    content := page.content
    dom :=
      { kids := fun n =>
          if n = page.content then [g]
          else if n = g then page.dom.kids page.content else page.dom.kids n
        parent := fun n =>
          if n = g then some page.content
          else if n ∈ page.dom.kids page.content then some g else page.dom.parent n
        matrix := fun n => if n = g then some (scaleMatrix fit) else page.dom.matrix n
        fresh := g + 1 } }

/-! ## The command line and the batch loop (lines 76-233 of `main`) -/

/-- The table `PageSizes` (a `std::map` from name to size, declared in
`MakoPageSizes.h`, which is not part of the sources) as an association list;
`find` is `List.lookup`.  The table is a parameter of `main`. -/
abbrev PageSizes := List (String × PageSize)

/-- Line 115: `std::transform(begin, end, begin, towupper)`, with `towupper` of
the default locale: the letters `a`-`z` become `A`-`Z`. -/
def upperCase (s : String) : String :=
  String.mk (s.data.map Char.toUpper)

/-- A document: its pages in order (`getNumPages`, `getPage`). -/
structure Document where
  pages : List Page

/-- One entry of the directory iteration of line 128, with the document that
`IPDFInput::open` yields for it (`none` when opening throws an `IError`). -/
structure DirEntry where
  isRegularFile : Bool
  stem : String
  extension : String
  document : Option Document

/-- The part of the file system `main` queries: `fs::exists`, `fs::is_empty` and the
directory iteration.  These calls and `create_directory` are taken to succeed; of
the library calls only `IPDFInput::open` is given a failing outcome. -/
structure FileSystem where
  pathExists : String → Bool
  isEmpty : String → Bool
  entries : String → List DirEntry

/-- The effects of a run that matter here; the progress lines written to the standard
output are not recorded. -/
inductive Event where
  | usage (names : List String)
  | errorLine (text : String)
  | createDirectory (path : String)
  | openDocument (file : String)
  | writeAssembly (file : String) (document : Document)

/-- How a run ends: `main` returns a code, or it reaches undefined behaviour (a
string built from the null pointer `argv[argc]`, or the end iterator of the table
dereferenced). -/
inductive Exit where
  | returned (code : Nat)
  | undefinedBehaviour
  deriving DecidableEq

/-- A finished run. -/
structure Run where
  trace : List Event
  result : Exit

/-- Lines 42-68: `usage` prints the fixed text and every name of the table. -/
def usage (pageSizes : PageSizes) : Event :=
  Event.usage (pageSizes.map Prod.fst)

/-- Lines 143-203: the page loop over one document. -/
def processPages (fuel : Nat) (requestedPageSize : PageSize) : List Page → Option (List Page)
  | [] => some []
  | page :: rest =>
    match processPage fuel requestedPageSize page with
    | none => none
    | some page1 =>
      match processPages fuel requestedPageSize rest with
      | none => none
      | some rest1 => some (page1 :: rest1)

/-- Lines 128-211: the loop over the directory entries.  An `IError` thrown by
`open` is caught at line 214 and ends the run with code 1 (the branch for
platforms other than Windows). -/
def processEntries (fuel : Nat) (requestedPageSize : PageSize) (outputFolder : String) :
    List DirEntry → Option Run
  | [] => some { trace := [], result := Exit.returned 0 }
  | entry :: rest =>
    if entry.isRegularFile && entry.extension == ".pdf" then
      let inputFile := entry.stem ++ entry.extension
      match entry.document with
      | none =>
        some
          { trace := [Event.openDocument inputFile, Event.errorLine "Exception thrown"]
            result := Exit.returned 1 }
      | some document =>
        match processPages fuel requestedPageSize document.pages with
        | none => none
        | some pages =>
          let outputFile := outputFolder ++ "/" ++ entry.stem ++ "_out.pdf"
          match processEntries fuel requestedPageSize outputFolder rest with
          | none => none
          | some run =>
            some
              { trace :=
                  Event.openDocument inputFile ::
                    Event.writeAssembly outputFile { pages := pages } :: run.trace
                result := run.result }
    else
      processEntries fuel requestedPageSize outputFolder rest

/-- Lines 100-211, once the input folder has passed the test of line 93. -/
def convertFolder (fuel : Nat) (pageSizes : PageSizes) (fs : FileSystem)
    (inputFolder : String) (sizeArgument : Option String) : Option Run :=
  let outputFolder := inputFolder ++ "/out"
  let created :=
    if fs.pathExists outputFolder then [] else [Event.createDirectory outputFolder]
  match pageSizes.lookup "LETTER" with
  | none => some { trace := created, result := Exit.undefinedBehaviour }
  | some letter =>
    let batch := fun (requestedPageSize : PageSize) =>
      match processEntries fuel requestedPageSize outputFolder (fs.entries inputFolder) with
      | none => none
      | some run => some { trace := created ++ run.trace, result := run.result }
    match sizeArgument with
    | none => batch letter
    | some argument =>
      match pageSizes.lookup (upperCase argument) with
      | some size => batch size
      | none =>
        some
          { trace := created ++ [Event.errorLine "Page size not recognized.", usage pageSizes]
            result := Exit.returned 1 }

/-- The function `main` (lines 73-234) on the arguments `argv[0 .. argc-1]`.
With fewer than two arguments line 84 prints the usage and control goes on to
line 90, where `argv[1]` is the null pointer that ends `argv`. -/
def main (fuel : Nat) (pageSizes : PageSizes) (fs : FileSystem) : List String → Option Run
  | [] => some { trace := [usage pageSizes], result := Exit.undefinedBehaviour }
  | [_] => some { trace := [usage pageSizes], result := Exit.undefinedBehaviour }
  | _ :: inputFolder :: rest =>
    if !fs.pathExists inputFolder || fs.isEmpty inputFolder then
      some
        { trace := [Event.errorLine "Input folder does not exist or is empty.", usage pageSizes]
          result := Exit.returned 1 }
    else
      convertFolder fuel pageSizes fs inputFolder rest.head?

/-! ## Sample inputs -/

/-- The size `LETTER` of the specification's scenarios. -/
def letter : PageSize := { width := 612, height := 792 }

/-- A store with a fixed page, node 0, that has the children 1, 2, 3 in this order. -/
def sampleDom : Dom :=
  { kids := fun n => if n = 0 then [1, 2, 3] else []
    parent := fun n => if n = 1 ∨ n = 2 ∨ n = 3 then some 0 else none
    matrix := fun _ => none
    fresh := 4 }

/-- A page of the given extent over `sampleDom`, its boxes those of the extent. -/
def samplePage (width height : ℚ) : Page :=
  { width := width
    height := height
    cropBox := { x := 0, y := 0, dX := width, dY := height }
    bleedBox := { x := 0, y := 0, dX := width, dY := height }
    trimBox := { x := 0, y := 0, dX := width, dY := height }
    contentBox := { x := 0, y := 0, dX := width, dY := height }
    content := 0
    dom := sampleDom }

/-- A page of extent 300 x 400 without any child. -/
def emptyPage : Page :=
  { samplePage 300 400 with
    dom := { kids := fun _ => [], parent := fun _ => none, matrix := fun _ => none, fresh := 1 } }

theorem resizeScale_eq_min (t : PageSize) (w h : ℚ) :
    resizeScale t w h = min (t.width / w) (t.height / h) := by
  unfold resizeScale xScaleSize yScaleSize
  split_ifs with hlt
  · exact (min_eq_left hlt.le).symm
  · exact (min_eq_right (not_lt.mp hlt)).symm

theorem Dom.eq_of_fields {a b : Dom} (hk : ∀ n, a.kids n = b.kids n)
    (hp : ∀ n, a.parent n = b.parent n) (hm : ∀ n, a.matrix n = b.matrix n)
    (hf : a.fresh = b.fresh) : a = b := by
  cases a
  cases b
  simp only [Dom.mk.injEq]
  exact ⟨funext hk, funext hp, funext hm, hf⟩

theorem moveChildren_eq (rest : List NodeId) :
    ∀ (fuel : Nat) (d : Dom) (content scaleGroup : NodeId),
      content ≠ scaleGroup → d.kids content = rest → rest.Nodup →
      (∀ x ∈ rest, d.parent x = some content ∧ x ≠ scaleGroup) →
      rest.length ≤ fuel →
      moveChildren fuel d content scaleGroup rest.head? =
        some (movedDom d content scaleGroup rest) := by
  induction rest with
  | nil =>
    intro fuel d content g hcg hk _ _ _
    simp only [List.head?_nil, moveChildren]
    congr 1
    apply Dom.eq_of_fields
    · intro n
      simp only [movedDom, List.append_nil]
      by_cases h1 : n = g
      · simp [h1]
      · by_cases h2 : n = content
        · simp [h1, h2, hk, hcg]
        · simp [h1, h2]
    · intro n
      simp [movedDom]
    · intro n
      rfl
    · rfl
  | cons c rest ih =>
    intro fuel d content g hcg hk hnd hpar hfuel
    obtain ⟨fuel, rfl⟩ : ∃ k, fuel = k + 1 := by
      rw [List.length_cons] at hfuel
      exact ⟨fuel - 1, by omega⟩
    have hc := hpar c (List.mem_cons_self _ _)
    have hcnot : c ∉ rest := (List.nodup_cons.mp hnd).1
    have hnext : getNextSibling d c = rest.head? := by
      simp [getNextSibling, hc.1, hk, nextAfter]
    simp only [List.head?_cons, moveChildren, hnext]
    have hgc : g ≠ content := fun h => hcg h.symm
    rw [ih fuel (appendChild (extractChild d content c) g c) content g hcg
      (by simp [appendChild, extractChild, hc.1, hk, hcg])
      (List.nodup_cons.mp hnd).2
      (by
        intro x hx
        have hxc : x ≠ c := fun h => hcnot (h ▸ hx)
        have := hpar x (List.mem_cons_of_mem _ hx)
        refine ⟨?_, this.2⟩
        simp [appendChild, extractChild, hc.1, hxc, this.1])
      (by simpa using hfuel)]
    congr 1
    apply Dom.eq_of_fields
    · intro n
      simp only [movedDom, appendChild, extractChild, hc.1, if_true]
      by_cases h1 : n = g
      · simp [h1, hgc]
      · by_cases h2 : n = content
        · simp [h2, hcg]
        · simp [h1, h2]
    · intro n
      simp only [movedDom, appendChild, extractChild, hc.1, if_true, List.mem_cons]
      by_cases h1 : n ∈ rest
      · simp [h1]
      · by_cases h2 : n = c
        · simp [h2]
        · simp [h1, h2]
    · intro n
      simp [movedDom, appendChild, extractChild, hc.1]
    · simp [movedDom, appendChild, extractChild, hc.1]

theorem processPage_eq (fuel : Nat) (requestedPageSize : PageSize) (page : Page)
    (hwf : page.WellFormed) (hfuel : (page.dom.kids page.content).length ≤ fuel) :
    processPage fuel requestedPageSize page = some (rewrittenPage requestedPageSize page) := by
  obtain ⟨hnd, hpar, hcg⟩ := hwf
  unfold processPage
  simp only [createGroup, getFirstChild, hcg, if_false]
  rw [moveChildren_eq (page.dom.kids page.content) fuel _ page.content page.dom.fresh hcg
    (by simp [hcg]) hnd
    (by
      intro x hx
      have := hpar x hx
      exact ⟨by simp [this.2, this.1], this.2⟩)
    hfuel]
  simp only [rewrittenPage, Option.some.injEq, Page.mk.injEq, true_and]
  apply Dom.eq_of_fields
  · intro n
    simp only [appendChild, movedDom]
    by_cases h1 : n = page.content
    · simp [h1, hcg]
    · by_cases h2 : n = page.dom.fresh
      · simp [h2, hcg.symm]
      · simp [h1, h2]
  · intro n
    simp only [appendChild, movedDom]
    by_cases h1 : n = page.dom.fresh
    · simp [h1]
    · simp [h1]
  · intro n
    simp [appendChild, movedDom]
  · simp [appendChild, movedDom]

theorem processPage_matrix (requestedPageSize : PageSize) (page : Page) :
    (rewrittenPage requestedPageSize page).dom.matrix page.dom.fresh =
      some (scaleMatrix (fitPage requestedPageSize page.width page.height)) := by
  simp [rewrittenPage]

theorem rewrittenPage_kids_content (requestedPageSize : PageSize) (page : Page) :
    (rewrittenPage requestedPageSize page).dom.kids page.content = [page.dom.fresh] := by
  simp [rewrittenPage]

theorem rewrittenPage_kids_group (requestedPageSize : PageSize) (page : Page)
    (h : page.content ≠ page.dom.fresh) :
    (rewrittenPage requestedPageSize page).dom.kids page.dom.fresh =
      page.dom.kids page.content := by
  simp [rewrittenPage, h.symm]

theorem samplePage_wellFormed (w h : ℚ) : (samplePage w h).WellFormed := by
  simp [Page.WellFormed, samplePage, sampleDom]

theorem emptyPage_wellFormed : emptyPage.WellFormed := by
  simp [Page.WellFormed, emptyPage, samplePage]

/-! ## The claims: the fit -/

/-- C4, the fit equals the reference definition.  For a well-formed page of extent
`sw > 0`, `sh > 0` and any requested size: the code's fit is the specification's
(`fitSpec`: target `(rh, rw)` if `sw > sh` and `(rw, rh)` otherwise, scale the
minimum of the axis ratios, offsets half the slack); a square source keeps the
requested size unswapped; with enough fuel the page comes back with the new
group as its child and that group's matrix is `[scale, 0, 0, scale, dx, dy]`.
Source 612 x 792 against 612 x 792 gives target 612 x 792, scale 1, offsets 0, 0;
source 1000 x 500 against 612 x 792 gives target 792 x 612, scale 0.792, offsets
0, 108. -/
theorem fit_equals_reference (fuel : Nat) (requested : PageSize) (page : Page)
    (_hsw : 0 < page.width) (_hsh : 0 < page.height) (hwf : page.WellFormed)
    (hfuel : (page.dom.kids page.content).length ≤ fuel) :
    fitPage requested page.width page.height
        = fitSpec requested.width requested.height page.width page.height ∧
      (page.width = page.height →
        (fitPage requested page.width page.height).targetWidth = requested.width ∧
          (fitPage requested page.width page.height).targetHeight = requested.height) ∧
      (∃ page1, processPage fuel requested page = some page1 ∧
        page1.dom.kids page1.content = [page.dom.fresh] ∧
        page1.dom.matrix page.dom.fresh = some
          { xx := (fitSpec requested.width requested.height page.width page.height).resizeScale
            xy := 0
            yx := 0
            yy := (fitSpec requested.width requested.height page.width page.height).resizeScale
            dx := (fitSpec requested.width requested.height page.width page.height).dx
            dy := (fitSpec requested.width requested.height page.width page.height).dy }) ∧
      fitPage { width := 612, height := 792 } 612 792
        = { targetWidth := 612, targetHeight := 792, resizeScale := 1, dx := 0, dy := 0 } ∧
      fitPage { width := 612, height := 792 } 1000 500
        = { targetWidth := 792, targetHeight := 612, resizeScale := 792 / 1000, dx := 0,
            dy := 108 } := by
  have hspec : fitPage requested page.width page.height
      = fitSpec requested.width requested.height page.width page.height := by
    simp only [fitPage, fitSpec, resizeScale_eq_min, targetPageSize]
    split_ifs <;> rfl
  refine ⟨hspec, ?_, ?_, ?_, ?_⟩
  · intro heq
    simp [fitPage, targetPageSize, heq]
  · refine ⟨_, processPage_eq fuel requested page hwf hfuel, ?_, ?_⟩
    · exact rewrittenPage_kids_content requested page
    · rw [processPage_matrix, hspec]
      rfl
  · simp only [fitPage, targetPageSize, resizeScale, xScaleSize, yScaleSize]
    norm_num
  · simp only [fitPage, targetPageSize, resizeScale, xScaleSize, yScaleSize]
    norm_num

theorem fit_equals_reference_witness :
    fitPage letter (samplePage 1000 500).width (samplePage 1000 500).height
        = fitSpec letter.width letter.height (samplePage 1000 500).width
            (samplePage 1000 500).height ∧
      ((samplePage 1000 500).width = (samplePage 1000 500).height →
        (fitPage letter (samplePage 1000 500).width (samplePage 1000 500).height).targetWidth
            = letter.width ∧
          (fitPage letter (samplePage 1000 500).width (samplePage 1000 500).height).targetHeight
            = letter.height) ∧
      (∃ page1, processPage 3 letter (samplePage 1000 500) = some page1 ∧
        page1.dom.kids page1.content = [(samplePage 1000 500).dom.fresh] ∧
        page1.dom.matrix (samplePage 1000 500).dom.fresh = some
          { xx := (fitSpec letter.width letter.height (samplePage 1000 500).width
              (samplePage 1000 500).height).resizeScale
            xy := 0
            yx := 0
            yy := (fitSpec letter.width letter.height (samplePage 1000 500).width
              (samplePage 1000 500).height).resizeScale
            dx := (fitSpec letter.width letter.height (samplePage 1000 500).width
              (samplePage 1000 500).height).dx
            dy := (fitSpec letter.width letter.height (samplePage 1000 500).width
              (samplePage 1000 500).height).dy }) ∧
      fitPage { width := 612, height := 792 } 612 792
        = { targetWidth := 612, targetHeight := 792, resizeScale := 1, dx := 0, dy := 0 } ∧
      fitPage { width := 612, height := 792 } 1000 500
        = { targetWidth := 792, targetHeight := 612, resizeScale := 792 / 1000, dx := 0,
            dy := 108 } :=
  fit_equals_reference 3 letter (samplePage 1000 500) (by norm_num [samplePage])
    (by norm_num [samplePage]) (samplePage_wellFormed 1000 500)
    (by simp [samplePage, sampleDom])

/-- C5 as stated fails: for the landscape source 1000 x 500 and the portrait size
612 x 792, the target computed for the request 612 x 792 is 792 x 612, while the
target computed for the already swapped request 792 x 612 is 612 x 792. -/
theorem orientation_not_idempotent :
    (1000 : ℚ) > 500 ∧ (500 : ℚ) > 0 ∧ (612 : ℚ) < 792 ∧
      ¬ ((fitPage { width := 612, height := 792 } 1000 500).targetWidth
            = (fitPage { width := 792, height := 612 } 1000 500).targetWidth ∧
          (fitPage { width := 612, height := 792 } 1000 500).targetHeight
            = (fitPage { width := 792, height := 612 } 1000 500).targetHeight) := by
  refine ⟨by norm_num, by norm_num, by norm_num, ?_⟩
  simp only [fitPage, targetPageSize]
  norm_num

/-- C5, amended.  For a landscape source (`sw > sh`) the orientation correction
always exchanges the two requested dimensions: the request `(w, h)` gives the
target `(h, w)`, the already swapped request `(h, w)` gives the target `(w, h)`,
and the two targets agree exactly when `w = h`. -/
theorem orientation_swap_landscape (sw sh w h : ℚ) (hland : sw > sh) :
    (fitPage { width := w, height := h } sw sh).targetWidth = h ∧
      (fitPage { width := w, height := h } sw sh).targetHeight = w ∧
      (fitPage { width := h, height := w } sw sh).targetWidth = w ∧
      (fitPage { width := h, height := w } sw sh).targetHeight = h ∧
      (((fitPage { width := w, height := h } sw sh).targetWidth
            = (fitPage { width := h, height := w } sw sh).targetWidth ∧
          (fitPage { width := w, height := h } sw sh).targetHeight
            = (fitPage { width := h, height := w } sw sh).targetHeight) ↔ w = h) := by
  have h1 : targetPageSize { width := w, height := h } sw sh = { width := h, height := w } := by
    simp [targetPageSize, hland]
  have h2 : targetPageSize { width := h, height := w } sw sh = { width := w, height := h } := by
    simp [targetPageSize, hland]
  simp only [fitPage, h1, h2, true_and]
  constructor
  · intro hh
    exact hh.1.symm
  · intro hh
    exact ⟨hh.symm, hh⟩

theorem orientation_swap_landscape_witness :
    (fitPage { width := 612, height := 792 } 1000 500).targetWidth = 792 ∧
      (fitPage { width := 612, height := 792 } 1000 500).targetHeight = 612 ∧
      (fitPage { width := 792, height := 612 } 1000 500).targetWidth = 612 ∧
      (fitPage { width := 792, height := 612 } 1000 500).targetHeight = 792 ∧
      (((fitPage { width := 612, height := 792 } 1000 500).targetWidth
            = (fitPage { width := 792, height := 612 } 1000 500).targetWidth ∧
          (fitPage { width := 612, height := 792 } 1000 500).targetHeight
            = (fitPage { width := 792, height := 612 } 1000 500).targetHeight) ↔
        (612 : ℚ) = 792) :=
  orientation_swap_landscape 1000 500 612 792 (by norm_num)

/-! ## The claims: the page rewrite -/

/-- C3, rewrap postcondition.  For a well-formed page whose fixed page has the
ordered children `cs` (any number, none included), the page loop body, given at
least as much fuel as `cs` is long, returns a page whose fixed page has exactly one child,
the new group, and the group's children are `cs`: the same nodes in the same
order, none twice; every node of `cs` has the group as its parent, and the group
has the fixed page as its parent.  The page without children ends with one empty
group. -/
theorem rewrap_postcondition (fuel : Nat) (requested : PageSize) (page : Page)
    (hwf : page.WellFormed) (hfuel : (page.dom.kids page.content).length ≤ fuel) :
    (∃ page1, processPage fuel requested page = some page1 ∧
      page1.content = page.content ∧
      page1.dom.kids page.content = [page.dom.fresh] ∧
      page1.dom.kids page.dom.fresh = page.dom.kids page.content ∧
      (page1.dom.kids page.dom.fresh).length = (page.dom.kids page.content).length ∧
      (page1.dom.kids page.dom.fresh).Nodup ∧
      (∀ c ∈ page.dom.kids page.content, page1.dom.parent c = some page.dom.fresh) ∧
      page1.dom.parent page.dom.fresh = some page.content) ∧
    (∃ page0, processPage 0 requested emptyPage = some page0 ∧
      page0.dom.kids emptyPage.content = [emptyPage.dom.fresh] ∧
      page0.dom.kids emptyPage.dom.fresh = []) := by
  constructor
  · have hk := rewrittenPage_kids_group requested page hwf.2.2
    refine ⟨_, processPage_eq fuel requested page hwf hfuel, rfl,
      rewrittenPage_kids_content requested page, hk, by rw [hk], by rw [hk]; exact hwf.1, ?_, ?_⟩
    · intro c hc
      have hne := (hwf.2.1 c hc).2
      simp [rewrittenPage, hne, hc]
    · simp [rewrittenPage]
  · refine ⟨_, processPage_eq 0 requested emptyPage emptyPage_wellFormed
      (by simp [emptyPage]), rewrittenPage_kids_content requested emptyPage, ?_⟩
    rw [rewrittenPage_kids_group requested emptyPage emptyPage_wellFormed.2.2]
    simp [emptyPage, samplePage]

theorem rewrap_postcondition_witness :
    (∃ page1, processPage 3 letter (samplePage 612 792) = some page1 ∧
      page1.content = (samplePage 612 792).content ∧
      page1.dom.kids (samplePage 612 792).content = [(samplePage 612 792).dom.fresh] ∧
      page1.dom.kids (samplePage 612 792).dom.fresh
        = (samplePage 612 792).dom.kids (samplePage 612 792).content ∧
      (page1.dom.kids (samplePage 612 792).dom.fresh).length
        = ((samplePage 612 792).dom.kids (samplePage 612 792).content).length ∧
      (page1.dom.kids (samplePage 612 792).dom.fresh).Nodup ∧
      (∀ c ∈ (samplePage 612 792).dom.kids (samplePage 612 792).content,
        page1.dom.parent c = some (samplePage 612 792).dom.fresh) ∧
      page1.dom.parent (samplePage 612 792).dom.fresh = some (samplePage 612 792).content) ∧
    (∃ page0, processPage 0 letter emptyPage = some page0 ∧
      page0.dom.kids emptyPage.content = [emptyPage.dom.fresh] ∧
      page0.dom.kids emptyPage.dom.fresh = []) :=
  rewrap_postcondition 3 letter (samplePage 612 792) (samplePage_wellFormed 612 792)
    (by simp [samplePage, sampleDom])

/-- C9, the page boxes match the new extent.  For a well-formed page, the page
loop body, given enough fuel, returns a page whose width and height are the
orientation-corrected target dimensions and whose crop box, bleed box, trim box
and content box are all the rectangle `(0, 0, targetWidth, targetHeight)`. -/
theorem page_boxes_match (fuel : Nat) (requested : PageSize) (page : Page)
    (hwf : page.WellFormed) (hfuel : (page.dom.kids page.content).length ≤ fuel) :
    ∃ page1, processPage fuel requested page = some page1 ∧
      page1.width = (if page.width > page.height then requested.height else requested.width) ∧
      page1.height = (if page.width > page.height then requested.width else requested.height) ∧
      page1.cropBox = { x := 0, y := 0, dX := page1.width, dY := page1.height } ∧
      page1.bleedBox = { x := 0, y := 0, dX := page1.width, dY := page1.height } ∧
      page1.trimBox = { x := 0, y := 0, dX := page1.width, dY := page1.height } ∧
      page1.contentBox = { x := 0, y := 0, dX := page1.width, dY := page1.height } := by
  refine ⟨_, processPage_eq fuel requested page hwf hfuel, ?_, ?_, rfl, rfl, rfl, rfl⟩
  · simp only [rewrittenPage, fitPage, targetPageSize]
    split_ifs <;> rfl
  · simp only [rewrittenPage, fitPage, targetPageSize]
    split_ifs <;> rfl

theorem page_boxes_match_witness :
    ∃ page1, processPage 3 letter (samplePage 1000 500) = some page1 ∧
      page1.width = (if (samplePage 1000 500).width > (samplePage 1000 500).height
        then letter.height else letter.width) ∧
      page1.height = (if (samplePage 1000 500).width > (samplePage 1000 500).height
        then letter.width else letter.height) ∧
      page1.cropBox = { x := 0, y := 0, dX := page1.width, dY := page1.height } ∧
      page1.bleedBox = { x := 0, y := 0, dX := page1.width, dY := page1.height } ∧
      page1.trimBox = { x := 0, y := 0, dX := page1.width, dY := page1.height } ∧
      page1.contentBox = { x := 0, y := 0, dX := page1.width, dY := page1.height } :=
  page_boxes_match 3 letter (samplePage 1000 500) (samplePage_wellFormed 1000 500)
    (by simp [samplePage, sampleDom])

/-- C6 as stated fails: the page of width -100 and height 200 is not rejected.  The
page loop body returns a page: its extent and crop box are set to 612 x 792, its
three children are moved under the new group, node 4, and the group's matrix holds
the scale 612 / -100 = -6.12 obtained by dividing by the negative width. -/
theorem negative_extent_not_rejected :
    (samplePage (-100) 200).width ≤ 0 ∧
      ∃ page1, processPage 3 letter (samplePage (-100) 200) = some page1 ∧
        page1.width = 612 ∧ page1.height = 792 ∧
        page1.cropBox = { x := 0, y := 0, dX := 612, dY := 792 } ∧
        page1.dom.kids 0 = [4] ∧ page1.dom.kids 4 = [1, 2, 3] ∧
        page1.dom.matrix 4 = some
          { xx := -153 / 25, xy := 0, yx := 0, yy := -153 / 25, dx := 0, dy := 1008 } := by
  have hfit : fitPage letter (-100) 200
      = { targetWidth := 612, targetHeight := 792, resizeScale := -153 / 25, dx := 0,
          dy := 1008 } := by
    simp only [fitPage, targetPageSize, resizeScale, xScaleSize, yScaleSize, letter]
    norm_num
  refine ⟨by norm_num [samplePage], _,
    processPage_eq 3 letter (samplePage (-100) 200) (samplePage_wellFormed _ _)
      (by simp [samplePage, sampleDom]), ?_, ?_, ?_, ?_, ?_, ?_⟩
  · simp [rewrittenPage, samplePage, hfit]
  · simp [rewrittenPage, samplePage, hfit]
  · simp [rewrittenPage, samplePage, hfit, cropBoxOf]
  · simp [rewrittenPage, samplePage, sampleDom]
  · simp [rewrittenPage, samplePage, sampleDom]
  · simp [rewrittenPage, samplePage, sampleDom, hfit, scaleMatrix]

/-- C6, amended.  For a well-formed page whose width or height is `≤ 0`, the page
loop body signals no error: given enough fuel it returns a page, with the extent
set to the orientation-corrected target and the children moved under the new
group, as for any other page; when neither extent is zero, the group's matrix is
`[s, 0, 0, s, dx, dy]` with `s` the smaller of `targetWidth / width` and
`targetHeight / height`, a quotient by the non-positive extent. -/
theorem nonpositive_extent_processed (fuel : Nat) (requested : PageSize) (page : Page)
    (_hbad : page.width ≤ 0 ∨ page.height ≤ 0) (hwf : page.WellFormed)
    (hfuel : (page.dom.kids page.content).length ≤ fuel) :
    ∃ page1, processPage fuel requested page = some page1 ∧
      page1.width = (targetPageSize requested page.width page.height).width ∧
      page1.height = (targetPageSize requested page.width page.height).height ∧
      page1.dom.kids page.content = [page.dom.fresh] ∧
      page1.dom.kids page.dom.fresh = page.dom.kids page.content ∧
      (page.width ≠ 0 → page.height ≠ 0 →
        ∃ s : ℚ,
          s = min (page1.width / page.width) (page1.height / page.height) ∧
          page1.dom.matrix page.dom.fresh = some
            { xx := s, xy := 0, yx := 0, yy := s
              dx := (page1.width - page.width * s) / 2
              dy := (page1.height - page.height * s) / 2 }) := by
  refine ⟨_, processPage_eq fuel requested page hwf hfuel, rfl, rfl,
    rewrittenPage_kids_content requested page,
    rewrittenPage_kids_group requested page hwf.2.2, ?_⟩
  intro _ _
  refine ⟨_, rfl, ?_⟩
  rw [processPage_matrix]
  simp only [rewrittenPage, scaleMatrix, fitPage, resizeScale_eq_min]

theorem nonpositive_extent_processed_witness :
    ∃ page1, processPage 3 letter (samplePage (-100) 200) = some page1 ∧
      page1.width
        = (targetPageSize letter (samplePage (-100) 200).width
            (samplePage (-100) 200).height).width ∧
      page1.height
        = (targetPageSize letter (samplePage (-100) 200).width
            (samplePage (-100) 200).height).height ∧
      page1.dom.kids (samplePage (-100) 200).content = [(samplePage (-100) 200).dom.fresh] ∧
      page1.dom.kids (samplePage (-100) 200).dom.fresh
        = (samplePage (-100) 200).dom.kids (samplePage (-100) 200).content ∧
      ((samplePage (-100) 200).width ≠ 0 → (samplePage (-100) 200).height ≠ 0 →
        ∃ s : ℚ,
          s = min (page1.width / (samplePage (-100) 200).width)
              (page1.height / (samplePage (-100) 200).height) ∧
          page1.dom.matrix (samplePage (-100) 200).dom.fresh = some
            { xx := s, xy := 0, yx := 0, yy := s
              dx := (page1.width - (samplePage (-100) 200).width * s) / 2
              dy := (page1.height - (samplePage (-100) 200).height * s) / 2 }) :=
  nonpositive_extent_processed 3 letter (samplePage (-100) 200)
    (Or.inl (by norm_num [samplePage])) (samplePage_wellFormed _ _)
    (by simp [samplePage, sampleDom])

/-! ## Facts about the batch loop -/

/-- C8, evaluated on the code: with the program name as the only argument, line 84
prints the usage and does not return; control reaches line 90, which builds a
string from `argv[1]`, the null pointer: the run ends in undefined behaviour after
the usage, and does not end by returning 1 at the argument check. -/
theorem missing_argument_falls_through (fuel : Nat) (pageSizes : PageSizes) (fs : FileSystem)
    (program : String) :
    main fuel pageSizes fs [program] =
        some { trace := [usage pageSizes], result := Exit.undefinedBehaviour } ∧
      ∀ run, main fuel pageSizes fs [program] = some run → run.result ≠ Exit.returned 1 := by
  refine ⟨rfl, ?_⟩
  intro run hrun
  simp only [main, Option.some.injEq] at hrun
  subst hrun
  simp

end MakoScaleToFit
